import Mathlib

/-!
Verification of the session-state engine, permission routing, prompt retry,
history loading and path-key mapping of the aero-work backend.

The Rust sources are shallowly embedded as Lean definitions:

* `serde_json::Value` is modelled by `AJson` (numbers as integers; no claim
  depends on floating-point values);
* `HashMap` is modelled by an association list with insert-overwrite
  semantics (`mapInsert` / `mapLookup`) — the source only ever inserts and
  looks up these maps, so iteration order is unobservable;
* calls to `Utc::now()` and `Uuid::new_v4()` are modelled by explicit
  `now : Int` and fresh-id `String` parameters;
* a Rust indexing panic (`chat_items[idx]` out of bounds) is modelled by
  returning `none` from the operation.
-/

/-- Model of `serde_json::Value`. -/
inductive AJson where
  | null
  | bool (b : Bool)
  | num (n : Int)
  | str (s : String)
  | arr (items : List AJson)
  | obj (fields : List (String × AJson))

namespace AJson

/-- Model of `Value::get(key)` on an object: first field with the given key. -/
def get : AJson → String → Option AJson
  | .obj fields, key =>
    match fields.find? (fun f => f.1 == key) with
    | some f => some f.2
    | none => none
  | _, _ => none

/-- Model of `Value::as_str()`. -/
def as_str : AJson → Option String
  | .str s => some s
  | _ => none

/-- Model of `Value::as_bool()`. -/
def as_bool : AJson → Option Bool
  | .bool b => some b
  | _ => none

/-- Model of `Value::as_array()`. -/
def as_array : AJson → Option (List AJson)
  | .arr items => some items
  | _ => none

end AJson

/-- Association-list lookup, modelling `HashMap::get`. -/
def mapLookup {β : Type} (m : List (String × β)) (k : String) : Option β :=
  match m with
  | [] => none
  | (k', v) :: rest => if k' == k then some v else mapLookup rest k

/-- Association-list insert with overwrite, modelling `HashMap::insert`. -/
def mapInsert {β : Type} (m : List (String × β)) (k : String) (v : β) :
    List (String × β) :=
  match m with
  | [] => [(k, v)]
  | (k', v') :: rest =>
    if k' == k then (k, v) :: rest else (k', v') :: mapInsert rest k v

/-! ## ACP data types (src/src-tauri/src/acp/types.rs) -/

/-- `ContentBlock` from acp/types.rs. -/
inductive ContentBlock where
  | Text (text : String)
  | Image (data : String) (mime_type : String)
  | ResourceLink (uri : String) (name : String)
  | Resource (resource : AJson)

/-- `ToolCallStatus` from acp/types.rs. -/
inductive ToolCallStatus where
  | Pending
  | InProgress
  | Completed
  | Failed
deriving DecidableEq

/-- `ToolKind` from acp/types.rs. -/
inductive ToolKind where
  | Read
  | Edit
  | Delete
  | Move
  | Search
  | Execute
  | Think
  | Fetch
  | SwitchMode
  | Other
deriving DecidableEq

/-- `ToolCallLocation` from acp/types.rs. -/
structure ToolCallLocation where
  path : String
  line : Option Nat

/-- `ToolCallContent` from acp/types.rs. -/
inductive ToolCallContent where
  | Content (content : ContentBlock)
  | Diff (path : String) (old_text : Option String) (new_text : String)
  | Terminal (terminal_id : String)

/-- `ToolCall` from acp/types.rs. -/
structure ToolCall where
  tool_call_id : String
  title : String
  kind : Option ToolKind
  status : Option ToolCallStatus
  raw_input : Option AJson
  raw_output : Option AJson
  content : Option (List ToolCallContent)
  locations : Option (List ToolCallLocation)

/-- `ToolCallUpdate` from acp/types.rs. -/
structure ToolCallUpdate where
  tool_call_id : String
  title : Option String
  kind : Option ToolKind
  status : Option ToolCallStatus
  raw_input : Option AJson
  raw_output : Option AJson
  content : Option (List ToolCallContent)
  locations : Option (List ToolCallLocation)

/-- `PlanEntryPriority` from acp/types.rs. -/
inductive PlanEntryPriority where
  | High
  | Medium
  | Low
deriving DecidableEq

/-- `PlanEntryStatus` from acp/types.rs. -/
inductive PlanEntryStatus where
  | Pending
  | InProgress
  | Completed
deriving DecidableEq

/-- `PlanEntry` from acp/types.rs. -/
structure PlanEntry where
  content : String
  priority : PlanEntryPriority
  status : PlanEntryStatus

/-- `Plan` from acp/types.rs. -/
structure Plan where
  entries : List PlanEntry

/-- `PermissionOptionKind` from acp/types.rs. -/
inductive PermissionOptionKind where
  | AllowOnce
  | AllowAlways
  | RejectOnce
  | RejectAlways
deriving DecidableEq

/-- `PermissionOption` from acp/types.rs. -/
structure PermissionOption where
  option_id : String
  name : String
  kind : PermissionOptionKind

/-- `PermissionRequest` from acp/types.rs; `request_id` is an opaque JSON
value from the agent (`RequestId = serde_json::Value`). -/
structure PermissionRequest where
  request_id : AJson
  session_id : String
  tool_call : ToolCallUpdate
  options : List PermissionOption

/-- `PermissionOutcome` from acp/types.rs. -/
inductive PermissionOutcome where
  | Cancelled
  | Selected (option_id : String)

/-- `AvailableCommand` from acp/types.rs (`input` hint is a plain string). -/
structure AvailableCommand where
  name : String
  description : String
  input : Option String

/-- `SessionMode` from acp/types.rs. -/
structure SessionMode where
  id : String
  name : String
  description : Option String

/-- `SessionModeState` from acp/types.rs. -/
structure SessionModeState where
  current_mode_id : String
  available_modes : List SessionMode

/-- `SessionModel` from acp/types.rs. -/
structure SessionModel where
  model_id : String
  name : String
  description : Option String

/-- `SessionModelState` from acp/types.rs. -/
structure SessionModelState where
  current_model_id : String
  available_models : List SessionModel

/-- `StopReason` from acp/types.rs. -/
inductive StopReason where
  | EndTurn
  | MaxTokens
  | MaxTurnRequests
  | Refusal
  | Cancelled
deriving DecidableEq

/-- `SessionUpdate` from acp/types.rs. -/
inductive SessionUpdate where
  | UserMessageChunk (content : ContentBlock)
  | AgentMessageChunk (content : ContentBlock)
  | AgentThoughtChunk (content : ContentBlock)
  | ToolCall (tool_call : ToolCall)
  | ToolCallUpdate (update : ToolCallUpdate)
  | Plan (plan : Plan)
  | AvailableCommandsUpdate (available_commands : List AvailableCommand)
  | CurrentModeUpdate (current_mode_id : String)

/-! ## Session state (src/src-tauri/src/core/session_state.rs) -/

/-- `MessageRole` from core/session_state.rs. -/
inductive MessageRole where
  | User
  | Assistant
deriving DecidableEq

/-- `Message` from core/session_state.rs (timestamps in milliseconds). -/
structure Message where
  id : String
  role : MessageRole
  content : String
  timestamp : Int

/-- `ChatItem` from core/session_state.rs. -/
inductive ChatItem where
  | Message (message : Message)
  | ToolCall (tool_call : ToolCall)

/-- `SessionState` from core/session_state.rs.  `tool_calls_map` maps a
tool_call_id to an index into `chat_items`. -/
structure SessionState where
  id : String
  cwd : String
  chat_items : List ChatItem
  tool_calls_map : List (String × Nat)
  plan : Option Plan
  modes : Option SessionModeState
  models : Option SessionModelState
  available_commands : Option (List AvailableCommand)
  pending_permission : Option PermissionRequest
  created_at : Int
  updated_at : Int

/-- `SessionStateUpdate` from core/session_state.rs. -/
inductive SessionStateUpdate where
  | MessageChunk (content : String)
  | MessageAdded (message : Message)
  | ToolCallAdded (tool_call : ToolCall)
  | ToolCallUpdated (tool_call : ToolCall)
  | PlanUpdated (plan : Plan)
  | AvailableCommandsUpdated (commands : List AvailableCommand)
  | CurrentModeUpdated (mode_id : String)
  | FullState (state : SessionState)
  | Noop

namespace SessionState

/-- `SessionState::new` (the `Utc::now()` timestamp is the `now` argument). -/
def new (id : String) (cwd : String) (now : Int) : SessionState where
  id := id
  cwd := cwd
  chat_items := []
  tool_calls_map := []
  plan := none
  modes := none
  models := none
  available_commands := none
  pending_permission := none
  created_at := now
  updated_at := now

/-- `SessionState::set_modes`. -/
def set_modes (s : SessionState) (modes : SessionModeState) (now : Int) :
    SessionState :=
  { s with modes := some modes, updated_at := now }

/-- `SessionState::set_models`. -/
def set_models (s : SessionState) (models : SessionModelState) (now : Int) :
    SessionState :=
  { s with models := some models, updated_at := now }

/-- `SessionState::load_history`: inserts an index entry for every ToolCall of
the incoming items into the EXISTING `tool_calls_map` (the source does not
clear the map first), then replaces `chat_items` wholesale. -/
def load_history (s : SessionState) (chat_items : List ChatItem) (now : Int) :
    SessionState :=
  let newMap := chat_items.enum.foldl
    (fun m p =>
      match p.2 with
      | ChatItem.ToolCall tc => mapInsert m tc.tool_call_id p.1
      | _ => m)
    s.tool_calls_map
  { s with chat_items := chat_items, tool_calls_map := newMap, updated_at := now }

/-- `SessionState::add_user_message`; `fresh_id` models `Uuid::new_v4()`. -/
def add_user_message (s : SessionState) (content : String)
    (message_id : Option String) (fresh_id : String) (now : Int) :
    SessionState × SessionStateUpdate :=
  let message : Message :=
    { id := message_id.getD fresh_id
      role := MessageRole.User
      content := content
      timestamp := now }
  ({ s with chat_items := s.chat_items ++ [ChatItem.Message message],
            updated_at := now },
   SessionStateUpdate.MessageAdded message)

/-- `SessionState::handle_agent_message_chunk`: append to the last chat item
when it is an assistant message, otherwise push a new assistant message. -/
def handle_agent_message_chunk (s : SessionState) (content : ContentBlock)
    (fresh_id : String) (now : Int) : SessionState × SessionStateUpdate :=
  match content with
  | ContentBlock.Text text =>
    match s.chat_items.getLast? with
    | some (ChatItem.Message m) =>
      if m.role = MessageRole.Assistant then
        let m' := { m with content := m.content ++ text, timestamp := now }
        ({ s with chat_items := s.chat_items.dropLast ++ [ChatItem.Message m'] },
         SessionStateUpdate.MessageChunk text)
      else
        let message : Message :=
          { id := fresh_id, role := MessageRole.Assistant,
            content := text, timestamp := now }
        ({ s with chat_items := s.chat_items ++ [ChatItem.Message message] },
         SessionStateUpdate.MessageAdded message)
    | _ =>
      let message : Message :=
        { id := fresh_id, role := MessageRole.Assistant,
          content := text, timestamp := now }
      ({ s with chat_items := s.chat_items ++ [ChatItem.Message message] },
       SessionStateUpdate.MessageAdded message)
  | _ => (s, SessionStateUpdate.Noop)

/-- `SessionState::handle_user_message_chunk`: identical to the agent variant
with role user. -/
def handle_user_message_chunk (s : SessionState) (content : ContentBlock)
    (fresh_id : String) (now : Int) : SessionState × SessionStateUpdate :=
  match content with
  | ContentBlock.Text text =>
    match s.chat_items.getLast? with
    | some (ChatItem.Message m) =>
      if m.role = MessageRole.User then
        let m' := { m with content := m.content ++ text, timestamp := now }
        ({ s with chat_items := s.chat_items.dropLast ++ [ChatItem.Message m'] },
         SessionStateUpdate.MessageChunk text)
      else
        let message : Message :=
          { id := fresh_id, role := MessageRole.User,
            content := text, timestamp := now }
        ({ s with chat_items := s.chat_items ++ [ChatItem.Message message] },
         SessionStateUpdate.MessageAdded message)
    | _ =>
      let message : Message :=
        { id := fresh_id, role := MessageRole.User,
          content := text, timestamp := now }
      ({ s with chat_items := s.chat_items ++ [ChatItem.Message message] },
       SessionStateUpdate.MessageAdded message)
  | _ => (s, SessionStateUpdate.Noop)

/-- Field-wise overlay of a `ToolCallUpdate` onto a `ToolCall`, exactly the
sequence of `if let Some(...)` assignments in
`SessionState::handle_tool_call_update`. -/
def overlayToolCall (tc : ToolCall) (u : ToolCallUpdate) : ToolCall :=
  { tc with
    title := u.title.getD tc.title
    kind := match u.kind with | some k => some k | none => tc.kind
    status := match u.status with | some st => some st | none => tc.status
    raw_input := match u.raw_input with | some v => some v | none => tc.raw_input
    raw_output := match u.raw_output with | some v => some v | none => tc.raw_output
    content := match u.content with | some c => some c | none => tc.content
    locations := match u.locations with | some l => some l | none => tc.locations }

/-- `SessionState::handle_tool_call_update`.  The source indexes
`self.chat_items[idx]` unchecked; an out-of-bounds index is a Rust panic,
modelled as `none`. -/
def handle_tool_call_update (s : SessionState) (u : ToolCallUpdate) :
    Option (SessionState × SessionStateUpdate) :=
  match mapLookup s.tool_calls_map u.tool_call_id with
  | none => some (s, SessionStateUpdate.Noop)
  | some idx =>
    match s.chat_items.get? idx with
    | none => none
    | some (ChatItem.Message _) => some (s, SessionStateUpdate.Noop)
    | some (ChatItem.ToolCall tc) =>
      let tc' := overlayToolCall tc u
      some ({ s with chat_items := s.chat_items.set idx (ChatItem.ToolCall tc') },
            SessionStateUpdate.ToolCallUpdated tc')

/-- `SessionState::get_tool_call`; inner `none` means id unknown or index not a
ToolCall, outer `none` models the indexing panic. -/
def get_tool_call (s : SessionState) (tool_call_id : String) :
    Option (Option ToolCall) :=
  match mapLookup s.tool_calls_map tool_call_id with
  | none => some none
  | some idx =>
    match s.chat_items.get? idx with
    | none => none
    | some (ChatItem.ToolCall tc) => some (some tc)
    | some _ => some none

/-- `SessionState::apply_update`.  `updated_at` is refreshed first, then the
update is dispatched; `none` models the indexing panic reachable through
`handle_tool_call_update`. -/
def apply_update (s : SessionState) (update : SessionUpdate)
    (fresh_id : String) (now : Int) :
    Option (SessionState × SessionStateUpdate) :=
  let s := { s with updated_at := now }
  match update with
  | SessionUpdate.AgentMessageChunk content =>
    some (handle_agent_message_chunk s content fresh_id now)
  | SessionUpdate.UserMessageChunk content =>
    some (handle_user_message_chunk s content fresh_id now)
  | SessionUpdate.AgentThoughtChunk content =>
    some (handle_agent_message_chunk s content fresh_id now)
  | SessionUpdate.ToolCall tool_call =>
    let index := s.chat_items.length
    some ({ s with
            chat_items := s.chat_items ++ [ChatItem.ToolCall tool_call],
            tool_calls_map := mapInsert s.tool_calls_map tool_call.tool_call_id index },
          SessionStateUpdate.ToolCallAdded tool_call)
  | SessionUpdate.ToolCallUpdate u => handle_tool_call_update s u
  | SessionUpdate.Plan plan =>
    some ({ s with plan := some plan }, SessionStateUpdate.PlanUpdated plan)
  | SessionUpdate.AvailableCommandsUpdate cmds =>
    some ({ s with available_commands := some cmds },
          SessionStateUpdate.AvailableCommandsUpdated cmds)
  | SessionUpdate.CurrentModeUpdate mode_id =>
    some
      ((match s.modes with
        | some m => { s with modes := some { m with current_mode_id := mode_id } }
        | none => s),
       SessionStateUpdate.CurrentModeUpdated mode_id)

end SessionState

/-- `matches!(delta, SessionStateUpdate::Noop)` from
`SessionStateManager::apply_update`. -/
def SessionStateUpdate.isNoop : SessionStateUpdate → Bool
  | SessionStateUpdate.Noop => true
  | _ => false

/-- The manager broadcasts a delta to subscribers unless it is `Noop`
(core/session_state_manager.rs, `apply_update`). -/
def broadcast_of_delta (delta : SessionStateUpdate) : Option SessionStateUpdate :=
  if delta.isNoop then none else some delta

/-! ## JSON-RPC permission response (src/src-tauri/src/acp/client.rs) -/

/-- `JsonRpcError` from acp/types.rs. -/
structure JsonRpcError where
  code : Int
  message : String
  data : Option AJson

/-- `JsonRpcResponse` from acp/types.rs; `id` is an opaque JSON value. -/
structure JsonRpcResponse where
  jsonrpc : String
  id : AJson
  result : Option AJson
  error : Option JsonRpcError

/-- Serde serialization of `PermissionOutcome` (internally tagged with
`outcome`; variants renamed `cancelled` / `selected`, field renamed
`optionId`). -/
def PermissionOutcome.toJson : PermissionOutcome → AJson
  | PermissionOutcome.Cancelled => AJson.obj [("outcome", AJson.str "cancelled")]
  | PermissionOutcome.Selected option_id =>
    AJson.obj [("outcome", AJson.str "selected"),
               ("optionId", AJson.str option_id)]

/-- Serde serialization of the local `RequestPermissionResult` struct in
`AcpClient::respond_permission`: one field `outcome` holding the serialized
`PermissionOutcome`. -/
def requestPermissionResultJson (outcome : PermissionOutcome) : AJson :=
  AJson.obj [("outcome", outcome.toJson)]

/-- The JSON-RPC response constructed by `AcpClient::respond_permission`
before it is written to the agent's stdin. -/
def respond_permission (request_id : AJson) (outcome : PermissionOutcome) :
    JsonRpcResponse where
  jsonrpc := "2.0"
  id := request_id
  result := some (requestPermissionResultJson outcome)
  error := none

/-! ## Permission forwarding (src/src-tauri/src/server/websocket.rs,
`start_event_forwarding`) -/

/-- The predicate of the `find` in the dangerous-mode auto-approval branch:
`matches!(opt.kind, AllowOnce | AllowAlways)`. -/
def isAllowKind (k : PermissionOptionKind) : Bool :=
  match k with
  | PermissionOptionKind.AllowOnce => true
  | PermissionOptionKind.AllowAlways => true
  | _ => false

/-- `request.options.iter().find(...)` over the options in received order. -/
def find_allow_option (options : List PermissionOption) :
    Option PermissionOption :=
  options.find? (fun opt => isAllowKind opt.kind)

/-- What the permission-forwarding loop does with one inbound request:
either auto-respond to the agent (no fan-out, no pending permission), or save
the request as pending and fan out a `permission/request` notification. -/
inductive PermissionForwardAction where
  | autoRespond (request_id : AJson) (outcome : PermissionOutcome)
  | fanOut (request : PermissionRequest)

/-- One iteration of the permission-forwarding loop in
`start_event_forwarding`: with dangerous mode enabled, the first
`allow_once`/`allow_always` option is selected and the agent is answered
directly (`continue` skips the fan-out); otherwise the request is stored as
pending and forwarded to subscribers. -/
def handle_permission_request (dangerous_mode : Bool)
    (request : PermissionRequest) : PermissionForwardAction :=
  if dangerous_mode then
    match find_allow_option request.options with
    | some allow_option =>
      PermissionForwardAction.autoRespond request.request_id
        (PermissionOutcome.Selected allow_option.option_id)
    | none => PermissionForwardAction.fanOut request
  else
    PermissionForwardAction.fanOut request

/-! ## Path keys (src/src-tauri/src/core/session_registry.rs) -/

/-- Single-character replacement, modelling `str::replace` with a one-char
pattern and replacement. -/
def replaceChar (s : String) (a b : Char) : String :=
  String.mk (s.data.map (fun c => if c = a then b else c))

/-- `cwd_to_path_key`: canonicalize (an effectful filesystem call, passed in
as `canonicalize`; on failure the original string is kept), then replace every
`/` and every `_` with `-`. -/
def cwd_to_path_key (canonicalize : String → Option String) (cwd : String) :
    String :=
  let resolved := (canonicalize cwd).getD cwd
  replaceChar (replaceChar resolved '/' '-') '_' '-'

/-- `path_key_to_cwd`: replace every `-` with `/`. -/
def path_key_to_cwd (path_key : String) : String :=
  replaceChar path_key '-' '/'

/-! ## Prompt retry on stale session (src/src-tauri/src/server/websocket.rs,
`send_prompt_handler`) -/

/-- Character-wise lowercasing, modelling `str::to_lowercase` (all strings
this is applied to are ASCII). -/
def toLowerStr (s : String) : String := String.mk (s.data.map Char.toLower)

/-- Substring test, modelling Rust `str::contains` with a string pattern. -/
def strContainsSub (s pat : String) : Bool :=
  go s.data
where
  go : List Char → Bool
    | [] => pat.data.isEmpty
    | c :: cs => pat.data.isPrefixOf (c :: cs) || go cs

/-- `AcpError` from acp/client.rs (the IO/JSON payloads are kept as their
rendered descriptions). -/
inductive AcpErrorM where
  | Io (desc : String)
  | Json (desc : String)
  | Process (desc : String)
  | Rpc (code : Int) (message : String) (data : Option AJson)
  | Timeout
  | ChannelClosed
  | NotConnected

/-- The `thiserror` Display implementation of `AcpError`. -/
def acp_error_display : AcpErrorM → String
  | AcpErrorM.Io d => "IO error: " ++ d
  | AcpErrorM.Json d => "JSON error: " ++ d
  | AcpErrorM.Process d => "Agent process error: " ++ d
  | AcpErrorM.Rpc code message _ =>
    "RPC error " ++ toString code ++ ": " ++ message
  | AcpErrorM.Timeout => "Request timeout"
  | AcpErrorM.ChannelClosed => "Channel closed"
  | AcpErrorM.NotConnected => "Not connected"

/-- The `is_session_not_found` classification in `send_prompt_handler`: an
RPC error whose lowercased message, or lowercased `data.details` string,
contains "session not found". -/
def is_session_not_found (e : AcpErrorM) : Bool :=
  match e with
  | AcpErrorM.Rpc _ message data =>
    strContainsSub (toLowerStr message) "session not found" ||
    (match data with
     | some d =>
       match (d.get "details").bind AJson.as_str with
       | some s => strContainsSub (toLowerStr s) "session not found"
       | none => false
     | none => false)
  | _ => false

/-- `NewSessionResponse` from acp/types.rs, as returned by `session/resume`. -/
structure ResumeResponse where
  session_id : String
  modes : Option SessionModeState
  models : Option SessionModelState

/-- The environment of one `send_prompt_handler` run: the replies the agent
and the registry give to the calls the handler makes, in order. -/
structure PromptEnv where
  first_result : Except AcpErrorM StopReason
  registry_cwd : Option String
  resume_result : Except AcpErrorM ResumeResponse
  history_items : List ChatItem
  retry_result : Except AcpErrorM StopReason

/-- Observable trace of one `send_prompt_handler` run: the returned value,
the arguments of the `session/resume` call and of the retried
`session/prompt` call (if made), and the final session states. -/
structure SendPromptTrace where
  result : Except String StopReason
  resume_call : Option (String × String)
  retry_call : Option (String × String)
  old_state : SessionState
  new_session : Option (String × SessionState)

/-- `create_session_with_history` from core/session_state_manager.rs: a fresh
state, modes/models applied, then `load_history`. -/
def create_session_with_history (id : String) (cwd : String)
    (modes : Option SessionModeState) (models : Option SessionModelState)
    (chat_items : List ChatItem) (now : Int) : SessionState :=
  let state := SessionState.new id cwd now
  let state := match modes with
    | some m => state.set_modes m now
    | none => state
  let state := match models with
    | some m => state.set_models m now
    | none => state
  state.load_history chat_items now

/-- `send_prompt_handler` from server/websocket.rs, restricted to its
state-changing skeleton: add the user message to the current session, try
`session/prompt`; on an RPC error matching "session not found", look up the
cwd in the registry, resume, rebuild the session state from the history file,
re-add the user message, and retry the prompt once; any other error is
returned as its rendered string.  (Status bookkeeping and notification
broadcasts carry no session state and are omitted.) -/
def send_prompt_model (env : PromptEnv) (session_id : String)
    (old_state : SessionState) (content : String)
    (message_id : Option String) (fresh1 fresh2 : String) (now : Int) :
    SendPromptTrace :=
  let old1 := (old_state.add_user_message content message_id fresh1 now).1
  match env.first_result with
  | Except.ok resp =>
    { result := Except.ok resp, resume_call := none, retry_call := none,
      old_state := old1, new_session := none }
  | Except.error e =>
    if is_session_not_found e then
      match env.registry_cwd with
      | none =>
        { result := Except.error ("Session " ++ session_id ++ " not found in registry"),
          resume_call := none, retry_call := none,
          old_state := old1, new_session := none }
      | some cwd =>
        match env.resume_result with
        | Except.error re =>
          { result := Except.error ("Failed to auto-resume session: " ++ acp_error_display re),
            resume_call := some (session_id, cwd), retry_call := none,
            old_state := old1, new_session := none }
        | Except.ok rr =>
          let new_state :=
            create_session_with_history rr.session_id cwd rr.modes rr.models
              env.history_items now
          let new1 := (new_state.add_user_message content message_id fresh2 now).1
          match env.retry_result with
          | Except.ok resp2 =>
            { result := Except.ok resp2,
              resume_call := some (session_id, cwd),
              retry_call := some (rr.session_id, content),
              old_state := old1, new_session := some (rr.session_id, new1) }
          | Except.error e2 =>
            { result := Except.error ("Failed to send prompt after resume: " ++ acp_error_display e2),
              resume_call := some (session_id, cwd),
              retry_call := some (rr.session_id, content),
              old_state := old1, new_session := some (rr.session_id, new1) }
    else
      { result := Except.error (acp_error_display e), resume_call := none,
        retry_call := none, old_state := old1, new_session := none }

/-- Number of chat items that are a Message with the given id. -/
def countMessagesWithId (items : List ChatItem) (msg_id : String) : Nat :=
  items.countP (fun item =>
    match item with
    | ChatItem.Message m => m.id == msg_id
    | _ => false)

/-! ## History loader (src/src-tauri/src/core/session_registry.rs,
`load_session_chat_items`).  Input is the list of successfully JSON-parsed
lines of the session file (blank and malformed lines are skipped by the
source before any processing); `parse_ts` stands for the RFC3339 parser,
`now` for `Utc::now()`, and `fresh` supplies the `Uuid::new_v4()` value for
each line. -/

/-- `SYSTEM_MESSAGE_PATTERNS` from core/session_registry.rs. -/
def SYSTEM_MESSAGE_PATTERNS : List String :=
  ["<command-name>", "<command-message>", "<command-args>",
   "<local-command-stdout>", "<system-reminder>", "Caveat:",
   "This session is being continued from a previous", "Invalid API key",
   "\x7b\"subtasks\":",
   "CRITICAL: You MUST respond with ONLY a JSON", "Warmup"]

/-- `is_system_message`: empty content is not a system message; otherwise any
pattern that is a prefix of the content makes it one. -/
def is_system_message (content : String) : Bool :=
  if content.isEmpty then false
  else SYSTEM_MESSAGE_PATTERNS.any (fun pattern => pattern.isPrefixOf content)

/-- `extract_text_content` from core/session_registry.rs. -/
def extract_text_content (content : Option AJson) : Option String :=
  match content with
  | none => none
  | some c =>
    match c.as_str with
    | some s => some s
    | none =>
      match c.as_array with
      | some arr =>
        match arr.head? with
        | some first =>
          match (first.get "text").bind AJson.as_str with
          | some text => some text
          | none => first.as_str
        | none => none
      | none => none

/-- Loop state of `load_session_chat_items`: the accumulated items and the
`pending_tool_calls` map. -/
structure HistAcc where
  chat_items : List ChatItem
  pending_tool_calls : List (String × ToolCall)

/-- The message id used when flushing pending assistant text: the entry uuid
for the first flush, `"<uuid>-text-<n>"` afterwards. -/
def flush_msg_id (base_id : String) (text_counter : Nat) : String :=
  if text_counter = 0 then base_id
  else base_id ++ "-text-" ++ toString text_counter

/-- One content block of an assistant history entry: `text` blocks accumulate
into the pending text buffer; `tool_use` blocks flush the buffer as an
assistant message and append a completed ToolCall. -/
def assistant_content_step (timestamp : Int) (base_id : String)
    (st : HistAcc × String × Nat) (content_item : AJson) :
    HistAcc × String × Nat :=
  let (acc, pending_text, text_counter) := st
  match (content_item.get "type").bind AJson.as_str with
  | some "text" =>
    match (content_item.get "text").bind AJson.as_str with
    | some text =>
      if !text.isEmpty && !is_system_message text then
        (acc,
         (if pending_text.isEmpty then text else pending_text ++ "\n" ++ text),
         text_counter)
      else (acc, pending_text, text_counter)
    | none => (acc, pending_text, text_counter)
  | some "tool_use" =>
    let flushed :=
      if !pending_text.isEmpty then
        let message : Message :=
          { id := flush_msg_id base_id text_counter,
            role := MessageRole.Assistant,
            content := pending_text, timestamp := timestamp }
        ({ acc with chat_items := acc.chat_items ++ [ChatItem.Message message] },
         "", text_counter + 1)
      else (acc, pending_text, text_counter)
    let (acc, pending_text, text_counter) := flushed
    let tool_call_id := ((content_item.get "id").bind AJson.as_str).getD ""
    let tool_name := ((content_item.get "name").bind AJson.as_str).getD "Unknown"
    let input := content_item.get "input"
    let tool_call : ToolCall :=
      { tool_call_id := tool_call_id, title := tool_name, kind := none,
        status := some ToolCallStatus.Completed, raw_input := input,
        raw_output := none, content := none, locations := none }
    ({ chat_items := acc.chat_items ++ [ChatItem.ToolCall tool_call],
       pending_tool_calls :=
         mapInsert acc.pending_tool_calls tool_call_id tool_call },
     pending_text, text_counter)
  | _ => (acc, pending_text, text_counter)

/-- Process the content array of one assistant entry, flushing residual text
at the end. -/
def process_assistant_entry (timestamp : Int) (base_id : String)
    (acc : HistAcc) (content_arr : List AJson) : HistAcc :=
  let (acc, pending_text, text_counter) :=
    content_arr.foldl (assistant_content_step timestamp base_id) (acc, "", 0)
  if !pending_text.isEmpty then
    let message : Message :=
      { id := flush_msg_id base_id text_counter,
        role := MessageRole.Assistant,
        content := pending_text, timestamp := timestamp }
    { acc with chat_items := acc.chat_items ++ [ChatItem.Message message] }
  else acc

/-- Replace the first ToolCall chat item with the given id (the
`for … break` patch loop in the tool_result branch). -/
def patchFirstToolCall (items : List ChatItem) (tid : String)
    (tc : ToolCall) : List ChatItem :=
  match items with
  | [] => []
  | ChatItem.ToolCall t :: rest =>
    if t.tool_call_id == tid then ChatItem.ToolCall tc :: rest
    else ChatItem.ToolCall t :: patchFirstToolCall rest tid tc
  | item :: rest => item :: patchFirstToolCall rest tid tc

/-- One content block of a user history entry: a `tool_result` block patches
the pending ToolCall with the output text. -/
def tool_result_step (entry : AJson) (acc : HistAcc) (content_item : AJson) :
    HistAcc :=
  if (content_item.get "type").bind AJson.as_str = some "tool_result" then
    let tool_use_id := ((content_item.get "tool_use_id").bind AJson.as_str).getD ""
    let result_content := (content_item.get "content").bind AJson.as_str
    let tool_use_result := entry.get "toolUseResult"
    let stdout := tool_use_result.bind (fun r => (r.get "stdout").bind AJson.as_str)
    let stderr := tool_use_result.bind (fun r => (r.get "stderr").bind AJson.as_str)
    match mapLookup acc.pending_tool_calls tool_use_id with
    | some tool_call =>
      let output_text :=
        match stdout with
        | some s =>
          match stderr with
          | some e => if e.isEmpty then s else s ++ "\n" ++ e
          | none => s
        | none => result_content.getD ""
      let tool_call :=
        { tool_call with
          raw_output := some (AJson.str output_text),
          content := some [ToolCallContent.Content (ContentBlock.Text output_text)] }
      { chat_items := patchFirstToolCall acc.chat_items tool_use_id tool_call,
        pending_tool_calls :=
          mapInsert acc.pending_tool_calls tool_use_id tool_call }
    | none => acc
  else acc

/-- Process one parsed JSONL entry (one iteration of the main loop of
`load_session_chat_items`). -/
def process_entry (parse_ts : String → Option Int) (now : Int)
    (acc : HistAcc) (entry : AJson) (fresh : String) : HistAcc :=
  if ((entry.get "sessionId").bind AJson.as_str).isNone then acc
  else if (entry.get "isApiErrorMessage").bind AJson.as_bool = some true then acc
  else
    let timestamp := (((entry.get "timestamp").bind AJson.as_str).bind parse_ts).getD now
    match entry.get "message" with
    | none => acc
    | some msg =>
      let role_str := (msg.get "role").bind AJson.as_str
      if role_str = some "assistant" then
        match (msg.get "content").bind AJson.as_array with
        | some content_arr =>
          let base_id := ((entry.get "uuid").bind AJson.as_str).getD fresh
          process_assistant_entry timestamp base_id acc content_arr
        | none => acc
      else
        let acc :=
          if role_str = some "user" then
            match (msg.get "content").bind AJson.as_array with
            | some content_arr => content_arr.foldl (tool_result_step entry) acc
            | none => acc
          else acc
        let has_tool_result :=
          if role_str = some "user" then
            match (msg.get "content").bind AJson.as_array with
            | some arr =>
              arr.any (fun item => (item.get "type").bind AJson.as_str = some "tool_result")
            | none => false
          else false
        if has_tool_result then acc
        else
          match role_str, extract_text_content (msg.get "content") with
          | some rs, some text =>
            if is_system_message text then acc
            else
              match (match rs with
                     | "user" => some MessageRole.User
                     | "assistant" => some MessageRole.Assistant
                     | _ => none) with
              | none => acc
              | some role =>
                let id := ((entry.get "uuid").bind AJson.as_str).getD fresh
                { acc with chat_items := acc.chat_items ++
                    [ChatItem.Message { id := id, role := role,
                                        content := text, timestamp := timestamp }] }
          | _, _ => acc

/-- `MAX_HISTORY_ITEMS` from core/session_registry.rs. -/
def MAX_HISTORY_ITEMS : Nat := 200

/-- The untruncated item list produced by the main loop of
`load_session_chat_items`. -/
def parse_session_entries (parse_ts : String → Option Int) (now : Int)
    (fresh : Nat → String) (entries : List AJson) : List ChatItem :=
  (entries.enum.foldl
    (fun acc p => process_entry parse_ts now acc p.2 (fresh p.1))
    ⟨[], []⟩).chat_items

/-- `load_session_chat_items`: the parsed items, truncated to the most recent
`MAX_HISTORY_ITEMS` (`split_off(total - MAX)` keeps the tail). -/
def load_session_chat_items (parse_ts : String → Option Int) (now : Int)
    (fresh : Nat → String) (entries : List AJson) : List ChatItem :=
  let chat_items := parse_session_entries parse_ts now fresh entries
  let total := chat_items.length
  if total > MAX_HISTORY_ITEMS then chat_items.drop (total - MAX_HISTORY_ITEMS)
  else chat_items

/-! ## Operation sequences and the tool-index invariant -/

/-- The public mutating operations of the session-state engine
(`SessionStateManager::apply_update`, `add_user_message`, `load_history`). -/
inductive SessionOp where
  | update (u : SessionUpdate) (fresh_id : String) (now : Int)
  | addUserMessage (content : String) (message_id : Option String)
      (fresh_id : String) (now : Int)
  | loadHistory (items : List ChatItem) (now : Int)

/-- Run one public operation; `none` models a Rust panic. -/
def runOp (s : SessionState) : SessionOp → Option SessionState
  | SessionOp.update u fresh_id now => (s.apply_update u fresh_id now).map Prod.fst
  | SessionOp.addUserMessage c mid fresh_id now =>
    some (s.add_user_message c mid fresh_id now).1
  | SessionOp.loadHistory items now => some (s.load_history items now)

/-- Run a sequence of public operations. -/
def runOps (s : SessionState) : List SessionOp → Option SessionState
  | [] => some s
  | op :: ops => (runOp s op).bind (fun s' => runOps s' ops)

/-- The tool-index invariant: every entry of `tool_calls_map` points at an
in-bounds ToolCall chat item carrying the same id. -/
def toolIndexWF (s : SessionState) : Prop :=
  ∀ tc i, mapLookup s.tool_calls_map tc = some i →
    ∃ t, s.chat_items.get? i = some (ChatItem.ToolCall t) ∧ t.tool_call_id = tc

/-- A concrete tool call used in counterexample runs. -/
def tcFixture : ToolCall :=
  { tool_call_id := "t1", title := "tool", kind := none, status := none,
    raw_input := none, raw_output := none, content := none, locations := none }

/-- A concrete all-none update addressed at `tcFixture`. -/
def tcuFixture : ToolCallUpdate :=
  { tool_call_id := "t1", title := none, kind := none, status := none,
    raw_input := none, raw_output := none, content := none, locations := none }

/-- Test for a `Text` content block (the implicit filter of the chunk
handlers). -/
def ContentBlock.isText : ContentBlock → Bool
  | ContentBlock.Text _ => true
  | _ => false

/-- The session state reached from a fresh session by applying
`ToolCall(tcFixture)` and then `load_history([])`. -/
def staleStateFixture : SessionState :=
  { id := "s", cwd := "/", chat_items := [], tool_calls_map := [("t1", 0)],
    plan := none, modes := none, models := none, available_commands := none,
    pending_permission := none, created_at := 0, updated_at := 2 }

/-- C5: the JSON-RPC response produced by `respond_permission` carries the
agent's request id verbatim, and its result object has the single field
`outcome` whose value is either `{"outcome":"cancelled"}` or
`{"outcome":"selected","optionId":…}`. -/
theorem respond_permission_id_and_shape (request_id : AJson)
    (outcome : PermissionOutcome) :
    (respond_permission request_id outcome).id = request_id ∧
    (respond_permission request_id outcome).result =
      some (AJson.obj [("outcome", outcome.toJson)]) ∧
    (respond_permission request_id outcome).error = none ∧
    (outcome.toJson = AJson.obj [("outcome", AJson.str "cancelled")] ∨
     ∃ option_id, outcome = PermissionOutcome.Selected option_id ∧
       outcome.toJson = AJson.obj [("outcome", AJson.str "selected"),
                                   ("optionId", AJson.str option_id)]) := by
  refine ⟨rfl, rfl, rfl, ?_⟩
  cases outcome with
  | Cancelled => exact Or.inl rfl
  | Selected option_id => exact Or.inr ⟨option_id, rfl, rfl⟩

/-- C10: a chunk update whose content block is not a Text block leaves
`chat_items` and the tool index unchanged, yields a `Noop` delta, and `Noop`
deltas are not broadcast. -/
theorem non_text_chunks_are_noop (s : SessionState) (content : ContentBlock)
    (fresh_id : String) (now : Int) (h : content.isText = false) :
    s.apply_update (SessionUpdate.AgentMessageChunk content) fresh_id now =
      some ({ s with updated_at := now }, SessionStateUpdate.Noop) ∧
    s.apply_update (SessionUpdate.AgentThoughtChunk content) fresh_id now =
      some ({ s with updated_at := now }, SessionStateUpdate.Noop) ∧
    s.apply_update (SessionUpdate.UserMessageChunk content) fresh_id now =
      some ({ s with updated_at := now }, SessionStateUpdate.Noop) ∧
    ({ s with updated_at := now } : SessionState).chat_items = s.chat_items ∧
    ({ s with updated_at := now } : SessionState).tool_calls_map = s.tool_calls_map ∧
    broadcast_of_delta SessionStateUpdate.Noop = none := by
  cases content with
  | Text t => simp [ContentBlock.isText] at h
  | Image d m => exact ⟨rfl, rfl, rfl, rfl, rfl, rfl⟩
  | ResourceLink u n => exact ⟨rfl, rfl, rfl, rfl, rfl, rfl⟩
  | Resource r => exact ⟨rfl, rfl, rfl, rfl, rfl, rfl⟩

/-- Closed instance of `non_text_chunks_are_noop` at an Image chunk on a
fresh session. -/
theorem non_text_chunks_are_noop_witness :
    (ContentBlock.Image "d" "png").isText = false ∧
    ((SessionState.new "s" "/" 0).apply_update
        (SessionUpdate.AgentMessageChunk (ContentBlock.Image "d" "png")) "f" 5 =
      some ({ SessionState.new "s" "/" 0 with updated_at := 5 },
            SessionStateUpdate.Noop) ∧
     (SessionState.new "s" "/" 0).apply_update
        (SessionUpdate.AgentThoughtChunk (ContentBlock.Image "d" "png")) "f" 5 =
      some ({ SessionState.new "s" "/" 0 with updated_at := 5 },
            SessionStateUpdate.Noop) ∧
     (SessionState.new "s" "/" 0).apply_update
        (SessionUpdate.UserMessageChunk (ContentBlock.Image "d" "png")) "f" 5 =
      some ({ SessionState.new "s" "/" 0 with updated_at := 5 },
            SessionStateUpdate.Noop) ∧
     ({ SessionState.new "s" "/" 0 with updated_at := 5 } : SessionState).chat_items =
       (SessionState.new "s" "/" 0).chat_items ∧
     ({ SessionState.new "s" "/" 0 with updated_at := 5 } : SessionState).tool_calls_map =
       (SessionState.new "s" "/" 0).tool_calls_map ∧
     broadcast_of_delta SessionStateUpdate.Noop = none) :=
  ⟨rfl, non_text_chunks_are_noop (SessionState.new "s" "/" 0)
    (ContentBlock.Image "d" "png") "f" 5 rfl⟩

/-- C3: the tool-index invariant is NOT preserved by the public operations.
Applying `ToolCall(t1)` to a fresh session and then `load_history([])`
leaves a stale index entry `t1 → 0` although `chat_items` is empty, and a
subsequent `ToolCallUpdate(t1)` indexes `chat_items[0]` out of bounds
(a Rust panic, modelled as `none`). -/
theorem load_history_leaves_stale_tool_index :
    runOps (SessionState.new "s" "/" 0)
      [SessionOp.update (SessionUpdate.ToolCall tcFixture) "f1" 1,
       SessionOp.loadHistory [] 2] = some staleStateFixture ∧
    staleStateFixture.chat_items = [] ∧
    mapLookup staleStateFixture.tool_calls_map "t1" = some 0 ∧
    ¬ toolIndexWF staleStateFixture ∧
    runOps (SessionState.new "s" "/" 0)
      [SessionOp.update (SessionUpdate.ToolCall tcFixture) "f1" 1,
       SessionOp.loadHistory [] 2,
       SessionOp.update (SessionUpdate.ToolCallUpdate tcuFixture) "f2" 3] = none ∧
    staleStateFixture.get_tool_call "t1" = none := by
  refine ⟨rfl, rfl, by decide, ?_, rfl, rfl⟩
  intro h
  obtain ⟨t, ht, -⟩ := h "t1" 0 (by decide)
  simp [staleStateFixture] at ht

/-- The chunk-merge decision key: is the last chat item a Message of the
given role? -/
def lastIsRoleMessage (s : SessionState) (role : MessageRole) : Bool :=
  match s.chat_items.getLast? with
  | some (ChatItem.Message m) => decide (m.role = role)
  | _ => false

theorem chunk_step_merge_assistant (s : SessionState) (m : Message)
    (text fresh_id : String) (now : Int)
    (hlast : s.chat_items.getLast? = some (ChatItem.Message m))
    (hrole : m.role = MessageRole.Assistant) :
    s.handle_agent_message_chunk (ContentBlock.Text text) fresh_id now =
      ({ s with chat_items := s.chat_items.dropLast ++
          [ChatItem.Message { m with content := m.content ++ text, timestamp := now }] },
       SessionStateUpdate.MessageChunk text) := by
  simp [SessionState.handle_agent_message_chunk, hlast, hrole]

theorem chunk_step_new_assistant (s : SessionState)
    (text fresh_id : String) (now : Int)
    (h : lastIsRoleMessage s MessageRole.Assistant = false) :
    s.handle_agent_message_chunk (ContentBlock.Text text) fresh_id now =
      ({ s with chat_items := s.chat_items ++
          [ChatItem.Message { id := fresh_id, role := MessageRole.Assistant,
                              content := text, timestamp := now }] },
       SessionStateUpdate.MessageAdded
         { id := fresh_id, role := MessageRole.Assistant,
           content := text, timestamp := now }) := by
  unfold lastIsRoleMessage at h
  unfold SessionState.handle_agent_message_chunk
  cases hl : s.chat_items.getLast? with
  | none => simp [hl]
  | some item =>
    cases item with
    | Message m =>
      rw [hl] at h
      simp only [decide_eq_false_iff_not] at h
      simp [hl, h]
    | ToolCall tc => simp [hl]

theorem chunk_step_merge_user (s : SessionState) (m : Message)
    (text fresh_id : String) (now : Int)
    (hlast : s.chat_items.getLast? = some (ChatItem.Message m))
    (hrole : m.role = MessageRole.User) :
    s.handle_user_message_chunk (ContentBlock.Text text) fresh_id now =
      ({ s with chat_items := s.chat_items.dropLast ++
          [ChatItem.Message { m with content := m.content ++ text, timestamp := now }] },
       SessionStateUpdate.MessageChunk text) := by
  simp [SessionState.handle_user_message_chunk, hlast, hrole]

theorem chunk_step_new_user (s : SessionState)
    (text fresh_id : String) (now : Int)
    (h : lastIsRoleMessage s MessageRole.User = false) :
    s.handle_user_message_chunk (ContentBlock.Text text) fresh_id now =
      ({ s with chat_items := s.chat_items ++
          [ChatItem.Message { id := fresh_id, role := MessageRole.User,
                              content := text, timestamp := now }] },
       SessionStateUpdate.MessageAdded
         { id := fresh_id, role := MessageRole.User,
           content := text, timestamp := now }) := by
  unfold lastIsRoleMessage at h
  unfold SessionState.handle_user_message_chunk
  cases hl : s.chat_items.getLast? with
  | none => simp [hl]
  | some item =>
    cases item with
    | Message m =>
      rw [hl] at h
      simp only [decide_eq_false_iff_not] at h
      simp [hl, h]
    | ToolCall tc => simp [hl]

/-- Second tool-call fixture for the interleaving scenario. -/
def tcFixtureA : ToolCall :=
  { tool_call_id := "a", title := "tool_a", kind := none, status := none,
    raw_input := none, raw_output := none, content := none, locations := none }

/-- Third tool-call fixture for the interleaving scenario. -/
def tcFixtureB : ToolCall :=
  { tool_call_id := "b", title := "tool_b", kind := none, status := none,
    raw_input := none, raw_output := none, content := none, locations := none }

/-- Expected result of the scenario text1 → tool_a → tool_b → text2. -/
def scenarioStateFixture : SessionState :=
  { id := "sc", cwd := "/",
    chat_items :=
      [ChatItem.Message { id := "f1", role := MessageRole.Assistant,
                          content := "text1", timestamp := 1 },
       ChatItem.ToolCall tcFixtureA,
       ChatItem.ToolCall tcFixtureB,
       ChatItem.Message { id := "f4", role := MessageRole.Assistant,
                          content := "text2", timestamp := 4 }],
    tool_calls_map := [("a", 1), ("b", 2)],
    plan := none, modes := none, models := none, available_commands := none,
    pending_permission := none, created_at := 0, updated_at := 4 }

/-- C1: the chunk-merge rule.  An agent message or thought chunk is appended
to the last chat item exactly when that item is an assistant Message (with a
`MessageChunk` delta); otherwise a fresh assistant Message is pushed (with a
`MessageAdded` delta); the same holds for user chunks with role user; and in
the scenario text1 → tool_a → tool_b → text2 the two texts land in two
distinct messages. -/
theorem chunk_merge_rule (s : SessionState) (text fresh_id : String) (now : Int) :
    (∀ m, s.chat_items.getLast? = some (ChatItem.Message m) →
       m.role = MessageRole.Assistant →
       s.apply_update (SessionUpdate.AgentMessageChunk (ContentBlock.Text text)) fresh_id now =
         some ({ s with
                 updated_at := now,
                 chat_items := s.chat_items.dropLast ++
                   [ChatItem.Message { m with content := m.content ++ text, timestamp := now }] },
               SessionStateUpdate.MessageChunk text) ∧
       s.apply_update (SessionUpdate.AgentThoughtChunk (ContentBlock.Text text)) fresh_id now =
         some ({ s with
                 updated_at := now,
                 chat_items := s.chat_items.dropLast ++
                   [ChatItem.Message { m with content := m.content ++ text, timestamp := now }] },
               SessionStateUpdate.MessageChunk text)) ∧
    (lastIsRoleMessage s MessageRole.Assistant = false →
       s.apply_update (SessionUpdate.AgentMessageChunk (ContentBlock.Text text)) fresh_id now =
         some ({ s with
                 updated_at := now,
                 chat_items := s.chat_items ++
                   [ChatItem.Message { id := fresh_id, role := MessageRole.Assistant,
                                       content := text, timestamp := now }] },
               SessionStateUpdate.MessageAdded
                 { id := fresh_id, role := MessageRole.Assistant,
                   content := text, timestamp := now }) ∧
       s.apply_update (SessionUpdate.AgentThoughtChunk (ContentBlock.Text text)) fresh_id now =
         some ({ s with
                 updated_at := now,
                 chat_items := s.chat_items ++
                   [ChatItem.Message { id := fresh_id, role := MessageRole.Assistant,
                                       content := text, timestamp := now }] },
               SessionStateUpdate.MessageAdded
                 { id := fresh_id, role := MessageRole.Assistant,
                   content := text, timestamp := now })) ∧
    (∀ m, s.chat_items.getLast? = some (ChatItem.Message m) →
       m.role = MessageRole.User →
       s.apply_update (SessionUpdate.UserMessageChunk (ContentBlock.Text text)) fresh_id now =
         some ({ s with
                 updated_at := now,
                 chat_items := s.chat_items.dropLast ++
                   [ChatItem.Message { m with content := m.content ++ text, timestamp := now }] },
               SessionStateUpdate.MessageChunk text)) ∧
    (lastIsRoleMessage s MessageRole.User = false →
       s.apply_update (SessionUpdate.UserMessageChunk (ContentBlock.Text text)) fresh_id now =
         some ({ s with
                 updated_at := now,
                 chat_items := s.chat_items ++
                   [ChatItem.Message { id := fresh_id, role := MessageRole.User,
                                       content := text, timestamp := now }] },
               SessionStateUpdate.MessageAdded
                 { id := fresh_id, role := MessageRole.User,
                   content := text, timestamp := now })) ∧
    runOps (SessionState.new "sc" "/" 0)
      [SessionOp.update (SessionUpdate.AgentMessageChunk (ContentBlock.Text "text1")) "f1" 1,
       SessionOp.update (SessionUpdate.ToolCall tcFixtureA) "f2" 2,
       SessionOp.update (SessionUpdate.ToolCall tcFixtureB) "f3" 3,
       SessionOp.update (SessionUpdate.AgentMessageChunk (ContentBlock.Text "text2")) "f4" 4] =
      some scenarioStateFixture := by
  refine ⟨?_, ?_, ?_, ?_, rfl⟩
  · intro m hlast hrole
    constructor
    · show some (SessionState.handle_agent_message_chunk _ _ _ _) = _
      rw [chunk_step_merge_assistant { s with updated_at := now } m text fresh_id now hlast hrole]
    · show some (SessionState.handle_agent_message_chunk _ _ _ _) = _
      rw [chunk_step_merge_assistant { s with updated_at := now } m text fresh_id now hlast hrole]
  · intro h
    constructor
    · show some (SessionState.handle_agent_message_chunk _ _ _ _) = _
      rw [chunk_step_new_assistant { s with updated_at := now } text fresh_id now h]
    · show some (SessionState.handle_agent_message_chunk _ _ _ _) = _
      rw [chunk_step_new_assistant { s with updated_at := now } text fresh_id now h]
  · intro m hlast hrole
    show some (SessionState.handle_user_message_chunk _ _ _ _) = _
    rw [chunk_step_merge_user { s with updated_at := now } m text fresh_id now hlast hrole]
  · intro h
    show some (SessionState.handle_user_message_chunk _ _ _ _) = _
    rw [chunk_step_new_user { s with updated_at := now } text fresh_id now h]

/-- An assistant message fixture. -/
def msgFixtureA : Message :=
  { id := "m0", role := MessageRole.Assistant, content := "Hello", timestamp := 0 }

/-- A user message fixture. -/
def msgFixtureU : Message :=
  { id := "u0", role := MessageRole.User, content := "Hi", timestamp := 0 }

/-- A session whose last chat item is an assistant message. -/
def assistEndFixture : SessionState :=
  { SessionState.new "s" "/" 0 with chat_items := [ChatItem.Message msgFixtureA] }

/-- A session whose last chat item is a user message. -/
def userEndFixture : SessionState :=
  { SessionState.new "s" "/" 0 with chat_items := [ChatItem.Message msgFixtureU] }

/-- Closed instances of `chunk_merge_rule`: a chunk on an empty session opens
a message, a chunk after a same-role message merges, a user chunk after an
assistant message opens a new message. -/
theorem chunk_merge_rule_witness :
    ((SessionState.new "s" "/" 0).apply_update
        (SessionUpdate.AgentMessageChunk (ContentBlock.Text "hi")) "f" 1 =
      some ({ SessionState.new "s" "/" 0 with
              updated_at := 1,
              chat_items := [ChatItem.Message
                { id := "f", role := MessageRole.Assistant, content := "hi", timestamp := 1 }] },
            SessionStateUpdate.MessageAdded
              { id := "f", role := MessageRole.Assistant, content := "hi", timestamp := 1 })) ∧
    (assistEndFixture.apply_update
        (SessionUpdate.AgentMessageChunk (ContentBlock.Text "!")) "f" 2 =
      some ({ assistEndFixture with
              updated_at := 2,
              chat_items := [ChatItem.Message
                { id := "m0", role := MessageRole.Assistant, content := "Hello!", timestamp := 2 }] },
            SessionStateUpdate.MessageChunk "!")) ∧
    (userEndFixture.apply_update
        (SessionUpdate.UserMessageChunk (ContentBlock.Text "!")) "f" 3 =
      some ({ userEndFixture with
              updated_at := 3,
              chat_items := [ChatItem.Message
                { id := "u0", role := MessageRole.User, content := "Hi!", timestamp := 3 }] },
            SessionStateUpdate.MessageChunk "!")) ∧
    (assistEndFixture.apply_update
        (SessionUpdate.UserMessageChunk (ContentBlock.Text "yo")) "g" 4 =
      some ({ assistEndFixture with
              updated_at := 4,
              chat_items := [ChatItem.Message msgFixtureA,
                ChatItem.Message
                  { id := "g", role := MessageRole.User, content := "yo", timestamp := 4 }] },
            SessionStateUpdate.MessageAdded
              { id := "g", role := MessageRole.User, content := "yo", timestamp := 4 })) := by
  refine ⟨?_, ?_, ?_, ?_⟩
  · exact ((chunk_merge_rule (SessionState.new "s" "/" 0) "hi" "f" 1).2.1 rfl).1
  · exact ((chunk_merge_rule assistEndFixture "!" "f" 2).1 msgFixtureA rfl rfl).1
  · exact (chunk_merge_rule userEndFixture "!" "f" 3).2.2.1 msgFixtureU rfl rfl
  · exact (chunk_merge_rule assistEndFixture "yo" "g" 4).2.2.2.1 rfl

/-- A session holding the fixture tool call at index 0. -/
def toolEndFixture : SessionState :=
  { SessionState.new "s" "/" 0 with
    chat_items := [ChatItem.ToolCall tcFixture], tool_calls_map := [("t1", 0)] }

/-- An update setting title, status and raw_output, leaving the rest null. -/
def tcuMixedFixture : ToolCallUpdate :=
  { tool_call_id := "t1", title := some "new title", kind := none,
    status := some ToolCallStatus.Completed, raw_input := none,
    raw_output := some (AJson.num 42), content := none, locations := none }

/-- C2: `ToolCallUpdate` semantics. If the id is absent from the tool index
the state is unchanged and the non-broadcast `Noop` is emitted; if the index
maps the id to a ToolCall item, exactly the non-null fields of the update
overwrite that ToolCall, the rest are untouched, and a `ToolCallUpdated`
delta carrying the whole post-merge ToolCall is emitted and broadcast. -/
theorem tool_call_update_rule (s : SessionState) (u : ToolCallUpdate) :
    (mapLookup s.tool_calls_map u.tool_call_id = none →
       s.handle_tool_call_update u = some (s, SessionStateUpdate.Noop) ∧
       broadcast_of_delta SessionStateUpdate.Noop = none) ∧
    (∀ i tc, mapLookup s.tool_calls_map u.tool_call_id = some i →
       s.chat_items.get? i = some (ChatItem.ToolCall tc) →
       s.handle_tool_call_update u =
         some ({ s with chat_items :=
                  s.chat_items.set i (ChatItem.ToolCall (SessionState.overlayToolCall tc u)) },
               SessionStateUpdate.ToolCallUpdated (SessionState.overlayToolCall tc u)) ∧
       broadcast_of_delta
           (SessionStateUpdate.ToolCallUpdated (SessionState.overlayToolCall tc u)) =
         some (SessionStateUpdate.ToolCallUpdated (SessionState.overlayToolCall tc u))) ∧
    (∀ tc,
       (SessionState.overlayToolCall tc u).tool_call_id = tc.tool_call_id ∧
       (u.title = none → (SessionState.overlayToolCall tc u).title = tc.title) ∧
       (∀ x, u.title = some x → (SessionState.overlayToolCall tc u).title = x) ∧
       (u.kind = none → (SessionState.overlayToolCall tc u).kind = tc.kind) ∧
       (∀ x, u.kind = some x → (SessionState.overlayToolCall tc u).kind = some x) ∧
       (u.status = none → (SessionState.overlayToolCall tc u).status = tc.status) ∧
       (∀ x, u.status = some x → (SessionState.overlayToolCall tc u).status = some x) ∧
       (u.raw_input = none → (SessionState.overlayToolCall tc u).raw_input = tc.raw_input) ∧
       (∀ x, u.raw_input = some x → (SessionState.overlayToolCall tc u).raw_input = some x) ∧
       (u.raw_output = none → (SessionState.overlayToolCall tc u).raw_output = tc.raw_output) ∧
       (∀ x, u.raw_output = some x → (SessionState.overlayToolCall tc u).raw_output = some x) ∧
       (u.content = none → (SessionState.overlayToolCall tc u).content = tc.content) ∧
       (∀ x, u.content = some x → (SessionState.overlayToolCall tc u).content = some x) ∧
       (u.locations = none → (SessionState.overlayToolCall tc u).locations = tc.locations) ∧
       (∀ x, u.locations = some x → (SessionState.overlayToolCall tc u).locations = some x)) := by
  refine ⟨?_, ?_, ?_⟩
  · intro h
    exact ⟨by simp [SessionState.handle_tool_call_update, h], rfl⟩
  · intro i tc h1 h2
    refine ⟨?_, rfl⟩
    simp only [SessionState.handle_tool_call_update, h1, h2]
  · intro tc
    refine ⟨rfl, ?_, ?_, ?_, ?_, ?_, ?_, ?_, ?_, ?_, ?_, ?_, ?_, ?_, ?_⟩ <;>
      first
        | (intro h; simp [SessionState.overlayToolCall, h])
        | (intro x h; simp [SessionState.overlayToolCall, h])

/-- Closed instances of `tool_call_update_rule`: an unknown id is a
non-broadcast no-op on a fresh session; on a session holding `tcFixture`,
`tcuMixedFixture` overwrites exactly its non-null fields. -/
theorem tool_call_update_rule_witness :
    ((SessionState.new "s" "/" 0).handle_tool_call_update tcuFixture =
       some (SessionState.new "s" "/" 0, SessionStateUpdate.Noop) ∧
     broadcast_of_delta SessionStateUpdate.Noop = none) ∧
    (toolEndFixture.handle_tool_call_update tcuMixedFixture =
       some ({ toolEndFixture with
               chat_items := toolEndFixture.chat_items.set 0
                 (ChatItem.ToolCall (SessionState.overlayToolCall tcFixture tcuMixedFixture)) },
             SessionStateUpdate.ToolCallUpdated
               (SessionState.overlayToolCall tcFixture tcuMixedFixture)) ∧
     broadcast_of_delta
         (SessionStateUpdate.ToolCallUpdated
           (SessionState.overlayToolCall tcFixture tcuMixedFixture)) =
       some (SessionStateUpdate.ToolCallUpdated
         (SessionState.overlayToolCall tcFixture tcuMixedFixture))) ∧
    (SessionState.overlayToolCall tcFixture tcuMixedFixture).title = "new title" ∧
    (SessionState.overlayToolCall tcFixture tcuMixedFixture).kind = none ∧
    (SessionState.overlayToolCall tcFixture tcuMixedFixture).status =
      some ToolCallStatus.Completed := by
  refine ⟨?_, ?_, ?_, ?_, ?_⟩
  · exact (tool_call_update_rule (SessionState.new "s" "/" 0) tcuFixture).1 rfl
  · exact (tool_call_update_rule toolEndFixture tcuMixedFixture).2.1 0 tcFixture rfl rfl
  · exact ((tool_call_update_rule toolEndFixture tcuMixedFixture).2.2 tcFixture).2.2.1
      "new title" rfl
  · exact ((tool_call_update_rule toolEndFixture tcuMixedFixture).2.2 tcFixture).2.2.2.1 rfl
  · exact ((tool_call_update_rule toolEndFixture tcuMixedFixture).2.2
      tcFixture).2.2.2.2.2.2.1 ToolCallStatus.Completed rfl

theorem find_allow_option_first (pre post : List PermissionOption)
    (opt : PermissionOption)
    (hpre : ∀ o ∈ pre, isAllowKind o.kind = false)
    (hopt : isAllowKind opt.kind = true) :
    find_allow_option (pre ++ opt :: post) = some opt := by
  induction pre with
  | nil => simp [find_allow_option, List.find?, hopt]
  | cons o rest ih =>
    have ho : isAllowKind o.kind = false := hpre o (List.mem_cons_self o rest)
    have hrest : ∀ x ∈ rest, isAllowKind x.kind = false :=
      fun x hx => hpre x (List.mem_cons_of_mem o hx)
    have ih' := ih hrest
    simp only [find_allow_option] at ih' ⊢
    rw [List.cons_append, List.find?, ho]
    exact ih'

/-- C6: with dangerous mode enabled, the forwarding loop auto-responds to the
agent with the first option of kind `allow_once`/`allow_always` in the order
received (no reordering), and does not fan out a `permission/request`
notification. -/
theorem dangerous_mode_auto_approval (request : PermissionRequest)
    (pre post : List PermissionOption) (opt : PermissionOption)
    (hsplit : request.options = pre ++ opt :: post)
    (hpre : ∀ o ∈ pre, isAllowKind o.kind = false)
    (hopt : isAllowKind opt.kind = true) :
    handle_permission_request true request =
      PermissionForwardAction.autoRespond request.request_id
        (PermissionOutcome.Selected opt.option_id) ∧
    (∀ r, handle_permission_request true request ≠ PermissionForwardAction.fanOut r) := by
  have hfind : find_allow_option request.options = some opt := by
    rw [hsplit]; exact find_allow_option_first pre post opt hpre hopt
  constructor
  · simp [handle_permission_request, hfind]
  · intro r h
    simp [handle_permission_request, hfind] at h

/-- A reject option fixture. -/
def rejectOptFixture : PermissionOption :=
  { option_id := "r1", name := "No", kind := PermissionOptionKind.RejectOnce }

/-- An allow option fixture. -/
def allowOptFixture : PermissionOption :=
  { option_id := "a1", name := "Yes", kind := PermissionOptionKind.AllowOnce }

/-- A permission request whose second option is the first allow option. -/
def permReqFixture : PermissionRequest :=
  { request_id := AJson.num 7, session_id := "s", tool_call := tcuFixture,
    options := [rejectOptFixture, allowOptFixture] }

/-- Closed instance of `dangerous_mode_auto_approval`: the reject option is
skipped and the allow option `a1` is selected without fan-out. -/
theorem dangerous_mode_auto_approval_witness :
    permReqFixture.options = [rejectOptFixture] ++ allowOptFixture :: [] ∧
    isAllowKind allowOptFixture.kind = true ∧
    (handle_permission_request true permReqFixture =
       PermissionForwardAction.autoRespond permReqFixture.request_id
         (PermissionOutcome.Selected "a1") ∧
     ∀ r, handle_permission_request true permReqFixture ≠
       PermissionForwardAction.fanOut r) :=
  ⟨rfl, rfl,
   dangerous_mode_auto_approval permReqFixture [rejectOptFixture] [] allowOptFixture
     rfl
     (by intro o ho
         rw [List.mem_singleton] at ho
         subst ho
         rfl)
     rfl⟩

/-- C8: the history loader returns at most `MAX_HISTORY_ITEMS` (200) items,
always a suffix of the untruncated parse, and when the parse exceeds 200
items exactly the most recent 200 are kept in order. -/
theorem history_truncation (parse_ts : String → Option Int) (now : Int)
    (fresh : Nat → String) (entries : List AJson) :
    (load_session_chat_items parse_ts now fresh entries).length ≤ MAX_HISTORY_ITEMS ∧
    load_session_chat_items parse_ts now fresh entries <:+
      parse_session_entries parse_ts now fresh entries ∧
    ((parse_session_entries parse_ts now fresh entries).length > MAX_HISTORY_ITEMS →
       load_session_chat_items parse_ts now fresh entries =
         (parse_session_entries parse_ts now fresh entries).drop
           ((parse_session_entries parse_ts now fresh entries).length - MAX_HISTORY_ITEMS) ∧
       (load_session_chat_items parse_ts now fresh entries).length = MAX_HISTORY_ITEMS) := by
  have key : load_session_chat_items parse_ts now fresh entries =
      if (parse_session_entries parse_ts now fresh entries).length > MAX_HISTORY_ITEMS
      then (parse_session_entries parse_ts now fresh entries).drop
             ((parse_session_entries parse_ts now fresh entries).length - MAX_HISTORY_ITEMS)
      else parse_session_entries parse_ts now fresh entries := rfl
  rw [key]
  by_cases h : (parse_session_entries parse_ts now fresh entries).length > MAX_HISTORY_ITEMS
  · rw [if_pos h]
    refine ⟨?_, List.drop_suffix _ _, fun _ => ⟨rfl, ?_⟩⟩
    · rw [List.length_drop, Nat.sub_sub_self (le_of_lt h)]
    · rw [List.length_drop, Nat.sub_sub_self (le_of_lt h)]
  · rw [if_neg h]
    exact ⟨Nat.le_of_not_lt h, List.suffix_refl _, fun hh => absurd hh h⟩

/-- A `tool_use` content block fixture. -/
def toolUseBlockFixture : AJson :=
  AJson.obj [("type", AJson.str "tool_use"), ("id", AJson.str "t"),
             ("name", AJson.str "n")]

/-- One assistant JSONL entry whose content array yields 201 tool calls. -/
def bigEntryFixture : AJson :=
  AJson.obj [("sessionId", AJson.str "s"),
             ("message", AJson.obj
               [("role", AJson.str "assistant"),
                ("content", AJson.arr (List.replicate 201 toolUseBlockFixture))])]

set_option maxRecDepth 8000 in
/-- Closed instance of `history_truncation` on a file whose single entry
parses to 201 items: the loader keeps exactly the last 200. -/
theorem history_truncation_witness :
    (parse_session_entries (fun _ => none) 0 (fun _ => "u")
        [bigEntryFixture]).length > MAX_HISTORY_ITEMS ∧
    (load_session_chat_items (fun _ => none) 0 (fun _ => "u") [bigEntryFixture] =
       (parse_session_entries (fun _ => none) 0 (fun _ => "u") [bigEntryFixture]).drop
         ((parse_session_entries (fun _ => none) 0 (fun _ => "u")
             [bigEntryFixture]).length - MAX_HISTORY_ITEMS) ∧
     (load_session_chat_items (fun _ => none) 0 (fun _ => "u")
         [bigEntryFixture]).length = MAX_HISTORY_ITEMS) := by
  have hlen : (parse_session_entries (fun _ => none) 0 (fun _ => "u")
      [bigEntryFixture]).length > MAX_HISTORY_ITEMS := by decide
  exact ⟨hlen,
    (history_truncation (fun _ => none) 0 (fun _ => "u") [bigEntryFixture]).2.2 hlen⟩

theorem path_roundtrip_char (a : Char) :
    (fun c => if c = '-' then '/' else c)
      ((fun c => if c = '_' then '-' else c)
        ((fun c => if c = '/' then '-' else c) a)) = a ↔
    a ≠ '_' ∧ a ≠ '-' := by
  by_cases h1 : a = '/'
  · subst h1; decide
  · by_cases h2 : a = '_'
    · subst h2; decide
    · by_cases h3 : a = '-'
      · subst h3; decide
      · simp [h1, h2, h3]

theorem path_roundtrip_chars (l : List Char) :
    ((l.map (fun c => if c = '/' then '-' else c)).map
        (fun c => if c = '_' then '-' else c)).map
      (fun c => if c = '-' then '/' else c) = l ↔
    '_' ∉ l ∧ '-' ∉ l := by
  induction l with
  | nil => simp
  | cons a l ih =>
    simp only [List.map_cons, List.cons.injEq, List.mem_cons]
    rw [ih]
    have hc := path_roundtrip_char a
    simp only at hc
    rw [hc]
    constructor
    · rintro ⟨⟨ha1, ha2⟩, hl1, hl2⟩
      exact ⟨fun h => h.elim (fun h' => ha1 h'.symm) hl1,
             fun h => h.elim (fun h' => ha2 h'.symm) hl2⟩
    · rintro ⟨h1, h2⟩
      exact ⟨⟨fun h => h1 (Or.inl h.symm), fun h => h2 (Or.inl h.symm)⟩,
             fun h => h1 (Or.inr h), fun h => h2 (Or.inr h)⟩

theorem path_roundtrip_string (c : String) :
    path_key_to_cwd (replaceChar (replaceChar c '/' '-') '_' '-') = c ↔
    '_' ∉ c.data ∧ '-' ∉ c.data := by
  rw [String.ext_iff]
  exact path_roundtrip_chars c.data

/-- C9 (amended): `cwd_to_path_key` is the canonical form (falling back to
the input when canonicalization fails) with every `/` and `_` replaced by
`-`; the round-trip through `path_key_to_cwd` restores the canonical path
exactly when it contains neither `_` nor `-`. -/
theorem path_key_roundtrip (canonicalize : String → Option String) (cwd : String) :
    cwd_to_path_key canonicalize cwd =
      replaceChar (replaceChar ((canonicalize cwd).getD cwd) '/' '-') '_' '-' ∧
    (path_key_to_cwd (cwd_to_path_key canonicalize cwd) = (canonicalize cwd).getD cwd ↔
      '_' ∉ ((canonicalize cwd).getD cwd).data ∧
      '-' ∉ ((canonicalize cwd).getD cwd).data) := by
  exact ⟨rfl, path_roundtrip_string ((canonicalize cwd).getD cwd)⟩

/-- C9 counterexample: for the path `/a-b`, whose canonical form contains no
underscore, the round-trip changes it to `/a/b`, refuting "round-trips
exactly when the canonical path contains no `_`". -/
theorem path_key_roundtrip_fails_without_underscore :
    (fun s => some s) "/a-b" = some "/a-b" ∧
    '_' ∉ ("/a-b" : String).data ∧
    cwd_to_path_key (fun s => some s) "/a-b" = "-a-b" ∧
    path_key_to_cwd (cwd_to_path_key (fun s => some s) "/a-b") = "/a/b" ∧
    path_key_to_cwd (cwd_to_path_key (fun s => some s) "/a-b") ≠ "/a-b" := by
  refine ⟨rfl, by decide, rfl, rfl, by decide⟩

/-! ## User-side text ordering (C4) -/

/-- Text carried by a chat item, as characters (tool calls carry none). -/
def chatItemText : ChatItem → List Char
  | ChatItem.Message m => m.content.data
  | ChatItem.ToolCall _ => []

/-- Concatenated text of a chat log, in order. -/
def chatTextChars : List ChatItem → List Char
  | [] => []
  | item :: rest => chatItemText item ++ chatTextChars rest

/-- One user-side input: a `UserMessageChunk` folded via `apply_update`, or a
direct `add_user_message` injection by the gateway. -/
inductive UserTurnOp where
  | chunk (text : String) (fresh_id : String) (now : Int)
  | inject (content : String) (message_id : Option String)
      (fresh_id : String) (now : Int)

/-- The text an operation carries. -/
def userOpText : UserTurnOp → List Char
  | UserTurnOp.chunk t _ _ => t.data
  | UserTurnOp.inject c _ _ _ => c.data

/-- Concatenated text of a sequence of operations, in arrival order. -/
def userOpsText : List UserTurnOp → List Char
  | [] => []
  | op :: ops => userOpText op ++ userOpsText ops

/-- Run one user-side operation (the chunk case is exactly the
`UserMessageChunk` branch of `apply_update`). -/
def runUserOp (s : SessionState) : UserTurnOp → SessionState × SessionStateUpdate
  | UserTurnOp.chunk t fresh_id now =>
    SessionState.handle_user_message_chunk { s with updated_at := now }
      (ContentBlock.Text t) fresh_id now
  | UserTurnOp.inject c mid fresh_id now => s.add_user_message c mid fresh_id now

/-- Run a sequence of user-side operations. -/
def runUserOps (s : SessionState) : List UserTurnOp → SessionState
  | [] => s
  | op :: ops => runUserOps (runUserOp s op).1 ops

theorem runUserOp_chunk_is_apply_update (s : SessionState) (t fresh_id : String)
    (now : Int) :
    s.apply_update (SessionUpdate.UserMessageChunk (ContentBlock.Text t)) fresh_id now =
      some (runUserOp s (UserTurnOp.chunk t fresh_id now)) := rfl

theorem chatTextChars_append (l1 l2 : List ChatItem) :
    chatTextChars (l1 ++ l2) = chatTextChars l1 ++ chatTextChars l2 := by
  induction l1 with
  | nil => simp [chatTextChars]
  | cons a l ih => simp [chatTextChars, ih]

theorem eq_dropLast_append_of_getLast? {α : Type} {l : List α} {x : α}
    (h : l.getLast? = some x) : l = l.dropLast ++ [x] := by
  have hne : l ≠ [] := by intro he; subst he; simp at h
  have hx : l.getLast hne = x := by
    have := List.getLast?_eq_getLast l hne
    rw [this] at h
    exact Option.some_injective _ h
  rw [← hx]
  exact (List.dropLast_append_getLast hne).symm

theorem runUserOp_text (s : SessionState) (op : UserTurnOp) :
    chatTextChars (runUserOp s op).1.chat_items =
      chatTextChars s.chat_items ++ userOpText op := by
  cases op with
  | inject c mid fresh_id now =>
    simp [runUserOp, SessionState.add_user_message, chatTextChars_append,
          chatTextChars, chatItemText, userOpText]
  | chunk t fresh_id now =>
    cases hl : s.chat_items.getLast? with
    | none =>
      have hfalse : lastIsRoleMessage s MessageRole.User = false := by
        unfold lastIsRoleMessage; rw [hl]
      show chatTextChars
        (SessionState.handle_user_message_chunk { s with updated_at := now }
          (ContentBlock.Text t) fresh_id now).1.chat_items = _
      rw [chunk_step_new_user { s with updated_at := now } t fresh_id now hfalse]
      simp [chatTextChars_append, chatTextChars, chatItemText, userOpText]
    | some item =>
      cases item with
      | ToolCall tc =>
        have hfalse : lastIsRoleMessage s MessageRole.User = false := by
          unfold lastIsRoleMessage; rw [hl]
        show chatTextChars
          (SessionState.handle_user_message_chunk { s with updated_at := now }
            (ContentBlock.Text t) fresh_id now).1.chat_items = _
        rw [chunk_step_new_user { s with updated_at := now } t fresh_id now hfalse]
        simp [chatTextChars_append, chatTextChars, chatItemText, userOpText]
      | Message m =>
        by_cases hrole : m.role = MessageRole.User
        · show chatTextChars
            (SessionState.handle_user_message_chunk { s with updated_at := now }
              (ContentBlock.Text t) fresh_id now).1.chat_items = _
          rw [chunk_step_merge_user { s with updated_at := now } m t fresh_id now hl hrole]
          have hsplit := eq_dropLast_append_of_getLast? hl
          conv_rhs => rw [hsplit]
          simp [chatTextChars_append, chatTextChars, chatItemText, userOpText]
        · have hfalse : lastIsRoleMessage s MessageRole.User = false := by
            unfold lastIsRoleMessage
            rw [hl]
            simp [hrole]
          show chatTextChars
            (SessionState.handle_user_message_chunk { s with updated_at := now }
              (ContentBlock.Text t) fresh_id now).1.chat_items = _
          rw [chunk_step_new_user { s with updated_at := now } t fresh_id now hfalse]
          simp [chatTextChars_append, chatTextChars, chatItemText, userOpText]

theorem runUserOps_text (ops : List UserTurnOp) :
    ∀ s : SessionState, chatTextChars (runUserOps s ops).chat_items =
      chatTextChars s.chat_items ++ userOpsText ops := by
  induction ops with
  | nil => intro s; simp [runUserOps, userOpsText]
  | cons op ops ih =>
    intro s
    show chatTextChars (runUserOps (runUserOp s op).1 ops).chat_items = _
    rw [ih (runUserOp s op).1, runUserOp_text s op]
    simp [userOpsText, List.append_assoc]

/-- C4 (amended): over any interleaving of user chunks and direct
injections, the concatenated text of the chat equals the concatenation in
arrival order; `add_user_message` always appends a new user Message carrying
the caller-supplied id or the fresh one; and a user chunk merges into the
last chat item exactly when that item is a user Message — whether chunk-built
or directly injected — opening a new message otherwise. -/
theorem user_text_order (s : SessionState) (ops : List UserTurnOp) :
    (chatTextChars (runUserOps s ops).chat_items =
       chatTextChars s.chat_items ++ userOpsText ops) ∧
    (∀ c mid fresh_id now,
       (s.add_user_message c mid fresh_id now).1.chat_items =
         s.chat_items ++ [ChatItem.Message
           { id := mid.getD fresh_id, role := MessageRole.User,
             content := c, timestamp := now }] ∧
       (s.add_user_message c mid fresh_id now).2 =
         SessionStateUpdate.MessageAdded
           { id := mid.getD fresh_id, role := MessageRole.User,
             content := c, timestamp := now }) ∧
    (∀ t fresh_id now m, s.chat_items.getLast? = some (ChatItem.Message m) →
       m.role = MessageRole.User →
       (runUserOp s (UserTurnOp.chunk t fresh_id now)).1.chat_items =
         s.chat_items.dropLast ++ [ChatItem.Message
           { m with content := m.content ++ t, timestamp := now }]) ∧
    (∀ t fresh_id now, lastIsRoleMessage s MessageRole.User = false →
       (runUserOp s (UserTurnOp.chunk t fresh_id now)).1.chat_items =
         s.chat_items ++ [ChatItem.Message
           { id := fresh_id, role := MessageRole.User,
             content := t, timestamp := now }]) := by
  refine ⟨runUserOps_text ops s, ?_, ?_, ?_⟩
  · intro c mid fresh_id now
    exact ⟨rfl, rfl⟩
  · intro t fresh_id now m hl hrole
    show (SessionState.handle_user_message_chunk { s with updated_at := now }
      (ContentBlock.Text t) fresh_id now).1.chat_items = _
    rw [chunk_step_merge_user { s with updated_at := now } m t fresh_id now hl hrole]
  · intro t fresh_id now h
    show (SessionState.handle_user_message_chunk { s with updated_at := now }
      (ContentBlock.Text t) fresh_id now).1.chat_items = _
    rw [chunk_step_new_user { s with updated_at := now } t fresh_id now h]

/-- C4 counterexample: a user chunk IS merged into a directly injected user
message.  After `add_user_message("A", id := "m1")`, applying
`UserMessageChunk("B")` appends to that same message (content "AB", delta
`MessageChunk`) instead of opening a second message. -/
theorem chunk_merges_into_injected_message :
    ((SessionState.new "s" "/" 0).add_user_message "A" (some "m1") "f0" 1).1.apply_update
        (SessionUpdate.UserMessageChunk (ContentBlock.Text "B")) "f1" 2 =
      some ({ SessionState.new "s" "/" 0 with
              updated_at := 2,
              chat_items := [ChatItem.Message
                { id := "m1", role := MessageRole.User, content := "AB", timestamp := 2 }] },
            SessionStateUpdate.MessageChunk "B") ∧
    ([ChatItem.Message
        { id := "m1", role := MessageRole.User, content := "AB", timestamp := 2 }] :
      List ChatItem).length = 1 := ⟨rfl, rfl⟩

/-- Closed instances of `user_text_order`: the inject-then-chunk sequence
keeps text order "AB"; a chunk after a user message merges; a chunk after an
assistant message opens a new message. -/
theorem user_text_order_witness :
    (chatTextChars (runUserOps (SessionState.new "s" "/" 0)
        [UserTurnOp.inject "A" (some "m1") "f0" 1,
         UserTurnOp.chunk "B" "f1" 2]).chat_items =
      chatTextChars (SessionState.new "s" "/" 0).chat_items ++
        userOpsText [UserTurnOp.inject "A" (some "m1") "f0" 1,
                     UserTurnOp.chunk "B" "f1" 2]) ∧
    ((runUserOp userEndFixture (UserTurnOp.chunk "B" "f" 2)).1.chat_items =
       userEndFixture.chat_items.dropLast ++ [ChatItem.Message
         { msgFixtureU with content := msgFixtureU.content ++ "B", timestamp := 2 }]) ∧
    ((runUserOp assistEndFixture (UserTurnOp.chunk "B" "f" 2)).1.chat_items =
       assistEndFixture.chat_items ++ [ChatItem.Message
         { id := "f", role := MessageRole.User, content := "B", timestamp := 2 }]) :=
  ⟨(user_text_order (SessionState.new "s" "/" 0)
      [UserTurnOp.inject "A" (some "m1") "f0" 1, UserTurnOp.chunk "B" "f1" 2]).1,
   (user_text_order userEndFixture []).2.2.1 "B" "f" 2 msgFixtureU rfl rfl,
   (user_text_order assistEndFixture []).2.2.2 "B" "f" 2 rfl⟩

theorem create_session_with_history_chat_items (id cwd : String)
    (modes : Option SessionModeState) (models : Option SessionModelState)
    (items : List ChatItem) (now : Int) :
    (create_session_with_history id cwd modes models items now).chat_items = items := by
  unfold create_session_with_history
  cases modes <;> cases models <;> rfl

theorem countMessagesWithId_append (l1 l2 : List ChatItem) (msg_id : String) :
    countMessagesWithId (l1 ++ l2) msg_id =
      countMessagesWithId l1 msg_id + countMessagesWithId l2 msg_id := by
  simp [countMessagesWithId, List.countP_append]

theorem countMessagesWithId_single_self (m : Message) :
    countMessagesWithId [ChatItem.Message m] m.id = 1 := by
  simp [countMessagesWithId, List.countP_cons]

/-- C7: if the first `session/prompt` fails with an RPC error matching
"session not found", the gateway resumes with the registered cwd, adopts the
returned session id, re-adds the user message to the rebuilt session, retries
the prompt exactly once with the new id and returns its outcome; the user
message appears exactly once in the resumed session's chat items (its id is
fresh with respect to the loaded history).  Any other error is returned
without resuming or retrying. -/
theorem prompt_retry_on_stale_session (env : PromptEnv) (session_id : String)
    (old_state : SessionState) (content : String) (message_id : Option String)
    (fresh1 fresh2 : String) (now : Int) :
    (∀ e cwd rr, env.first_result = Except.error e →
       is_session_not_found e = true →
       env.registry_cwd = some cwd →
       env.resume_result = Except.ok rr →
       (send_prompt_model env session_id old_state content message_id
           fresh1 fresh2 now).resume_call = some (session_id, cwd) ∧
       (send_prompt_model env session_id old_state content message_id
           fresh1 fresh2 now).retry_call = some (rr.session_id, content) ∧
       (send_prompt_model env session_id old_state content message_id
           fresh1 fresh2 now).result =
         (match env.retry_result with
          | Except.ok r => Except.ok r
          | Except.error e2 =>
            Except.error ("Failed to send prompt after resume: " ++ acp_error_display e2)) ∧
       ∃ st, (send_prompt_model env session_id old_state content message_id
                fresh1 fresh2 now).new_session = some (rr.session_id, st) ∧
         st.chat_items = env.history_items ++ [ChatItem.Message
           { id := message_id.getD fresh2, role := MessageRole.User,
             content := content, timestamp := now }] ∧
         (countMessagesWithId env.history_items (message_id.getD fresh2) = 0 →
           countMessagesWithId st.chat_items (message_id.getD fresh2) = 1)) ∧
    (∀ e, env.first_result = Except.error e → is_session_not_found e = false →
       (send_prompt_model env session_id old_state content message_id
           fresh1 fresh2 now).result = Except.error (acp_error_display e) ∧
       (send_prompt_model env session_id old_state content message_id
           fresh1 fresh2 now).resume_call = none ∧
       (send_prompt_model env session_id old_state content message_id
           fresh1 fresh2 now).retry_call = none) ∧
    (∀ r, env.first_result = Except.ok r →
       (send_prompt_model env session_id old_state content message_id
           fresh1 fresh2 now).result = Except.ok r ∧
       (send_prompt_model env session_id old_state content message_id
           fresh1 fresh2 now).resume_call = none ∧
       (send_prompt_model env session_id old_state content message_id
           fresh1 fresh2 now).retry_call = none) := by
  refine ⟨?_, ?_, ?_⟩
  · intro e cwd rr h1 h2 h3 h4
    have hchat : ((create_session_with_history rr.session_id cwd rr.modes rr.models
        env.history_items now).add_user_message content message_id fresh2 now).1.chat_items =
        env.history_items ++ [ChatItem.Message
          { id := message_id.getD fresh2, role := MessageRole.User,
            content := content, timestamp := now }] := by
      show (create_session_with_history rr.session_id cwd rr.modes rr.models
        env.history_items now).chat_items ++ _ = _
      rw [create_session_with_history_chat_items]
    cases hr : env.retry_result with
    | ok r =>
      refine ⟨?_, ?_, ?_, ?_⟩ <;>
        simp only [send_prompt_model, h1, h2, h3, h4, hr, if_true]
      refine ⟨_, rfl, hchat, ?_⟩
      intro hzero
      rw [hchat, countMessagesWithId_append, hzero]
      have := countMessagesWithId_single_self
        { id := message_id.getD fresh2, role := MessageRole.User,
          content := content, timestamp := now }
      simpa using this
    | error e2 =>
      refine ⟨?_, ?_, ?_, ?_⟩ <;>
        simp only [send_prompt_model, h1, h2, h3, h4, hr, if_true]
      refine ⟨_, rfl, hchat, ?_⟩
      intro hzero
      rw [hchat, countMessagesWithId_append, hzero]
      have := countMessagesWithId_single_self
        { id := message_id.getD fresh2, role := MessageRole.User,
          content := content, timestamp := now }
      simpa using this
  · intro e h1 h2
    refine ⟨?_, ?_, ?_⟩ <;> simp only [send_prompt_model, h1, h2, Bool.false_eq_true,
      if_false]
  · intro r h1
    refine ⟨?_, ?_, ?_⟩ <;> simp only [send_prompt_model, h1]

/-- The RPC error the agent returns for an expired session. -/
def rpcNotFoundFixture : AcpErrorM :=
  AcpErrorM.Rpc (-32000) "Session not found" none

/-- The resume response adopted as authoritative. -/
def resumeRespFixture : ResumeResponse :=
  { session_id := "s2", modes := none, models := none }

/-- A prompt environment triggering the auto-resume path. -/
def promptEnvFixture : PromptEnv :=
  { first_result := Except.error rpcNotFoundFixture,
    registry_cwd := some "/w",
    resume_result := Except.ok resumeRespFixture,
    history_items := [ChatItem.Message msgFixtureU],
    retry_result := Except.ok StopReason.EndTurn }

/-- Closed instance of `prompt_retry_on_stale_session` on the fixture
environment: resume is called with ("s1","/w"), the prompt is retried on
"s2", EndTurn is returned, and the user message "hello" appears once. -/
theorem prompt_retry_on_stale_session_witness :
    promptEnvFixture.first_result = Except.error rpcNotFoundFixture ∧
    is_session_not_found rpcNotFoundFixture = true ∧
    promptEnvFixture.registry_cwd = some "/w" ∧
    promptEnvFixture.resume_result = Except.ok resumeRespFixture ∧
    ((send_prompt_model promptEnvFixture "s1" (SessionState.new "s1" "/w" 0)
        "hello" (some "mid") "fa" "fb" 9).resume_call = some ("s1", "/w") ∧
     (send_prompt_model promptEnvFixture "s1" (SessionState.new "s1" "/w" 0)
        "hello" (some "mid") "fa" "fb" 9).retry_call =
       some (resumeRespFixture.session_id, "hello") ∧
     (send_prompt_model promptEnvFixture "s1" (SessionState.new "s1" "/w" 0)
        "hello" (some "mid") "fa" "fb" 9).result =
       (match promptEnvFixture.retry_result with
        | Except.ok r => Except.ok r
        | Except.error e2 =>
          Except.error ("Failed to send prompt after resume: " ++ acp_error_display e2)) ∧
     ∃ st, (send_prompt_model promptEnvFixture "s1" (SessionState.new "s1" "/w" 0)
              "hello" (some "mid") "fa" "fb" 9).new_session =
         some (resumeRespFixture.session_id, st) ∧
       st.chat_items = promptEnvFixture.history_items ++ [ChatItem.Message
         { id := (some "mid").getD "fb", role := MessageRole.User,
           content := "hello", timestamp := 9 }] ∧
       (countMessagesWithId promptEnvFixture.history_items ((some "mid").getD "fb") = 0 →
         countMessagesWithId st.chat_items ((some "mid").getD "fb") = 1)) :=
  ⟨rfl, by decide, rfl, rfl,
   (prompt_retry_on_stale_session promptEnvFixture "s1" (SessionState.new "s1" "/w" 0)
       "hello" (some "mid") "fa" "fb" 9).1
     rpcNotFoundFixture "/w" resumeRespFixture rfl (by decide) rfl rfl⟩
